import Mathlib

/-!
Verification development for the deadline & notification scheduling engine of
the legal-document assistant backend (server/services/deadline_service.py,
notification_service.py, compliance_service.py).

Conventions of the embedding:
* UTC instants handled by the recurrence calculator are modelled as a
  calendar record (year/month/day/hour/minute/second), because the Python
  code manipulates calendar fields via datetime.replace and timedelta.
* Instants handled by the notification scheduler and dispatcher are modelled
  as integer minutes on an absolute timeline, because that code only
  subtracts timedeltas and compares instants (no calendar-field access
  except timezone-local HH:MM formatting, which is modelled explicitly).
* Python exceptions are modelled with Except String; a raised exception is
  an .error value.
* The relational store is modelled as in-memory lists of rows; a
  db.session.commit makes the staged list the current one, and the
  rollback-on-exception in the services can only restore state back to the
  most recent commit, which the embedding reflects by threading the
  committed state explicitly.
* Presentation-only data (templated notification title/message text, the
  str.title() capitalisation in GST deadline titles, the metadata JSON
  column and updated_at timestamps) is not modelled: no claim and no
  control-flow decision in the modelled code depends on it.
-/

set_option autoImplicit false

deriving instance DecidableEq for Except

namespace LegalBackend

/-! ## Calendar model (datetime with UTC fields) -/

/-- Gregorian leap-year test, as used by Python's calendar arithmetic. -/
def isLeap (y : Nat) : Bool :=
  (y % 4 == 0 && y % 100 != 0) || (y % 400 == 0)

/-- Number of days in a month of a given year (Gregorian). -/
def daysInMonth (y m : Nat) : Nat :=
  if m = 2 then (if isLeap y then 29 else 28)
  else if m = 4 ∨ m = 6 ∨ m = 9 ∨ m = 11 then 30
  else 31

/-- A UTC instant as Python's naive datetime stores it (microseconds are
irrelevant to every modelled operation and are omitted). -/
structure DateTime where
  year : Nat
  month : Nat
  day : Nat
  hour : Nat
  minute : Nat
  second : Nat
deriving DecidableEq, Repr

/-- A datetime is valid when its fields are in range, day being bounded by
the length of its month. -/
def DateTime.ValidDT (d : DateTime) : Prop :=
  1 ≤ d.month ∧ d.month ≤ 12 ∧ 1 ≤ d.day ∧ d.day ≤ daysInMonth d.year d.month ∧
  d.hour < 24 ∧ d.minute < 60 ∧ d.second < 60

instance (d : DateTime) : Decidable d.ValidDT := by
  unfold DateTime.ValidDT; infer_instance

/-- Injective linear key: for valid datetimes, comparing keys is exactly
chronological comparison (Python's datetime order). -/
def DateTime.key (d : DateTime) : Nat :=
  ((((d.year * 13 + d.month) * 32 + d.day) * 24 + d.hour) * 60 + d.minute) * 60 + d.second

/-- Chronological strict order on datetimes (via the linear key). -/
def dtLt (a b : DateTime) : Prop := a.key < b.key

instance (a b : DateTime) : Decidable (dtLt a b) := by
  unfold dtLt; infer_instance

/-- The day after a given date (time-of-day unchanged), rolling over month
and year boundaries: the effect of Python's timedelta(days=1). -/
def succDay (d : DateTime) : DateTime :=
  if d.day < daysInMonth d.year d.month then { d with day := d.day + 1 }
  else if d.month < 12 then { d with month := d.month + 1, day := 1 }
  else { d with year := d.year + 1, month := 1, day := 1 }

/-- Addition of n days: datetime + timedelta(days=n). -/
def addDays (d : DateTime) : Nat → DateTime
  | 0 => d
  | n + 1 => succDay (addDays d n)

/-- Python's datetime.replace(year=y, month=m) keeping the remaining fields:
raises ValueError when the month is out of range or the unchanged day does
not exist in the target month. -/
def pyReplaceYM (d : DateTime) (y m : Nat) : Except String DateTime :=
  if m < 1 ∨ 12 < m then .error "month must be in 1..12"
  else if daysInMonth y m < d.day then .error "day is out of range for month"
  else .ok { d with year := y, month := m }

/-- DeadlineService._calculate_next_due_date: dispatch on the recurrence
pattern string; daily and weekly use timedelta addition, the month-based
patterns use datetime.replace (which can raise), and an unrecognized
pattern falls into the final else branch replacing month+1 with no
December handling. Exceptions propagate (the except clause re-raises). -/
def calculateNextDueDate (current_due_date : DateTime) (recurrence_pattern : String) :
    Except String DateTime :=
  if recurrence_pattern = "daily" then
    .ok (addDays current_due_date 1)
  else if recurrence_pattern = "weekly" then
    .ok (addDays current_due_date 7)
  else if recurrence_pattern = "monthly" then
    if current_due_date.month = 12 then
      pyReplaceYM current_due_date (current_due_date.year + 1) 1
    else
      pyReplaceYM current_due_date current_due_date.year (current_due_date.month + 1)
  else if recurrence_pattern = "quarterly" then
    if current_due_date.month + 3 > 12 then
      pyReplaceYM current_due_date (current_due_date.year + 1) (current_due_date.month + 3 - 12)
    else
      pyReplaceYM current_due_date current_due_date.year (current_due_date.month + 3)
  else if recurrence_pattern = "annually" then
    pyReplaceYM current_due_date (current_due_date.year + 1) current_due_date.month
  else
    pyReplaceYM current_due_date current_due_date.year (current_due_date.month + 1)

/-! ## Deadline rows, the lifecycle manager and the GST generator -/

/-- models.DeadlineType. -/
inductive DeadlineKind
  | gst_filing
  | renewal
  | compliance
  | custom
deriving DecidableEq, Repr

/-- A persisted Deadline row. The metadata JSON column and the audit
timestamps (created_at / updated_at) are omitted: no modelled control flow
reads them. -/
structure DeadlineRow where
  id : Nat
  user_id : Nat
  document_id : Option Nat
  title : String
  description : Option String
  deadline_type : DeadlineKind
  due_date : DateTime
  is_recurring : Bool
  recurrence_pattern : Option String
  reminder_days : List Nat
  is_completed : Bool
  completed_at : Option DateTime
deriving DecidableEq, Repr

/-- Python truthiness of an optional string column (None and the empty
string are falsy). -/
def truthyStr : Option String → Bool
  | none => false
  | some s => !s.isEmpty

/-- Row filter used by ComplianceService._create_gst_deadline:
filter_by(user_id=..., deadline_type=GST_FILING, due_date=...). -/
def gstMatch (user_id : Nat) (due_date : DateTime) (r : DeadlineRow) : Bool :=
  r.user_id == user_id && r.deadline_type == DeadlineKind.gst_filing && r.due_date == due_date

/-- The fresh Deadline row that ComplianceService._create_gst_deadline
builds when no matching row exists. The id is a store-assigned surrogate
key that the modelled code never reads. -/
def mkGstRow (store : List DeadlineRow) (user_id : Nat) (business_type : String)
    (due_date : DateTime) : DeadlineRow := {
  id := store.length
  user_id := user_id
  document_id := none
  title := "GST " ++ business_type ++ " Return Filing"
  description := some ("File GST " ++ business_type ++ " return")
  deadline_type := DeadlineKind.gst_filing
  due_date := due_date
  is_recurring := true
  recurrence_pattern := some business_type
  reminder_days := [7, 3, 1]
  is_completed := false
  completed_at := none }

/-- ComplianceService._create_gst_deadline: look for an existing
(user, GST_FILING, due_date) row first; if present return it without
inserting, otherwise insert and commit a fresh recurring GST row. -/
def createGstDeadline (store : List DeadlineRow) (user_id : Nat) (business_type : String)
    (due_date : DateTime) : List DeadlineRow × DeadlineRow :=
  match store.find? (gstMatch user_id due_date) with
  | some existing => (store, existing)
  | none =>
    (store ++ [mkGstRow store user_id business_type due_date],
      mkGstRow store user_id business_type due_date)

/-- Row lookup Deadline.query.filter_by(id=deadline_id, user_id=user_id).first(). -/
def findDeadline (store : List DeadlineRow) (deadline_id user_id : Nat) : Option DeadlineRow :=
  store.find? (fun r => r.id == deadline_id && r.user_id == user_id)

/-- Mutation of the completion fields of one row, as committed by
mark_deadline_completed before any successor is considered. -/
def completeRow (now : DateTime) (r : DeadlineRow) : DeadlineRow :=
  { r with is_completed := true, completed_at := some now }

/-- The store after mark_deadline_completed's first commit: the looked-up
row object was mutated in place and the session committed. -/
def applyCompletion (store : List DeadlineRow) (deadline_id user_id : Nat) (now : DateTime) :
    List DeadlineRow :=
  store.map (fun r => if r.id == deadline_id && r.user_id == user_id then completeRow now r else r)

/-- DeadlineService._create_next_recurring_deadline: guard on a truthy
recurrence pattern, compute the next due date (which can raise,
propagating before anything is inserted), then insert and commit the
cloned successor. Notification scheduling for the successor happens after
this commit and lives in a separate table, modelled separately. The
successor clones every column of the completed row except the advanced due
date and the reset completion state (plus a fresh surrogate id). -/
def successorRow (store : List DeadlineRow) (completed : DeadlineRow)
    (next_due_date : DateTime) : DeadlineRow :=
  { completed with
    id := store.length
    due_date := next_due_date
    is_completed := false
    completed_at := none }

/-- DeadlineService._create_next_recurring_deadline, see successorRow. -/
def createNextRecurringDeadline (store : List DeadlineRow) (completed : DeadlineRow) :
    List DeadlineRow × Except String (Option DeadlineRow) :=
  match completed.recurrence_pattern with
  | none => (store, .ok none)
  | some pattern =>
    if pattern.isEmpty then (store, .ok none)
    else
      match calculateNextDueDate completed.due_date pattern with
      | .error e => (store, .error e)
      | .ok next_due_date =>
        (store ++ [successorRow store completed next_due_date],
          .ok (some (successorRow store completed next_due_date)))

/-- DeadlineService.mark_deadline_completed: ownership-checked lookup, then
commit the completion flags, then (for recurring deadlines) create the next
occurrence. An exception in that second phase is caught and re-raised after
a session rollback, but the completion commit has already happened, so the
rollback restores only to that commit. The returned Except carries the value
Python returns: the completed deadline itself. -/
def markDeadlineCompleted (store : List DeadlineRow) (deadline_id user_id : Nat)
    (now : DateTime) : List DeadlineRow × Except String DeadlineRow :=
  match findDeadline store deadline_id user_id with
  | none => (store, .error "Deadline not found")
  | some r =>
    let completed := completeRow now r
    let committed := applyCompletion store deadline_id user_id now
    if completed.is_recurring && truthyStr completed.recurrence_pattern then
      match createNextRecurringDeadline committed completed with
      | (store2, .error e) => (store2, .error e)
      | (store2, .ok _) => (store2, .ok completed)
    else (committed, .ok completed)

/-- A recurring monthly deadline due January 31: the successor computation
raises on it. -/
def janDeadline : DeadlineRow := {
  id := 1
  user_id := 1
  document_id := none
  title := "Monthly retainer invoice"
  description := none
  deadline_type := DeadlineKind.custom
  due_date := ⟨2025, 1, 31, 0, 0, 0⟩
  is_recurring := true
  recurrence_pattern := some "monthly"
  reminder_days := [7, 3, 1]
  is_completed := false
  completed_at := none }

/-- A recurring monthly deadline due 2025-03-20, the end-to-end scenario of
the design document. -/
def marDeadline : DeadlineRow := {
  id := 1
  user_id := 1
  document_id := none
  title := "GST Monthly Return Filing"
  description := none
  deadline_type := DeadlineKind.gst_filing
  due_date := ⟨2025, 3, 20, 0, 0, 0⟩
  is_recurring := true
  recurrence_pattern := some "monthly"
  reminder_days := [7, 3, 1]
  is_completed := false
  completed_at := none }

/-! ## Notification world: instants as integer minutes on an absolute
timeline (the scheduler and dispatcher only subtract timedeltas and compare
instants; one day is 1440 minutes) -/

/-- models.NotificationType. -/
inductive NotifKind
  | email
  | sms
  | whatsapp
  | push
deriving DecidableEq, Repr

/-- The notification_preferences JSON column: every key optional, absent
keys fall back to the documented defaults through dict.get. -/
structure Prefs where
  email : Option Bool
  sms : Option Bool
  whatsapp : Option Bool
  push : Option Bool
  quiet_hours_start : Option String
  quiet_hours_end : Option String
deriving DecidableEq, Repr

/-- The User columns the notification code reads. -/
structure UserRec where
  id : Nat
  phone : Option String
  timezone : String
  notification_preferences : Option Prefs
deriving DecidableEq, Repr

/-- A persisted Notification row. The templated title/message strings and
the metadata column are omitted (presentation-only, never read back by the
modelled code); the id is a store-assigned surrogate key the code never
reads. -/
structure NotificationRow where
  id : Nat
  user_id : Nat
  deadline_id : Option Nat
  notification_type : NotifKind
  scheduled_for : Int
  is_sent : Bool
  sent_at : Option Int
deriving DecidableEq, Repr

/-- Lexicographic comparison of char lists by code point. -/
def pyLexLe : List Char → List Char → Bool
  | [], _ => true
  | _ :: _, [] => false
  | a :: as, b :: bs =>
    if a.toNat < b.toNat then true
    else if b.toNat < a.toNat then false
    else pyLexLe as bs

/-- Python's string comparison (lexicographic by code point), used on the
HH:MM strings. -/
def pyStrLe (a b : String) : Bool := pyLexLe a.data b.data

/-- Zero-padded two-digit decimal field, as strftime emits. -/
def pad2 (n : Nat) : String := if n < 10 then "0" ++ toString n else toString n

/-- strftime of a local time given as minutes-of-day, in the %H:%M form. -/
def formatHM (m : Nat) : String := pad2 (m / 60) ++ ":" ++ pad2 (m % 60)

/-- Minutes-of-day after shifting a UTC instant into a timezone given by
its offset in minutes (replace(tzinfo=UTC).astimezone(tz) followed by
reading the local clock). -/
def localMinutesOfDay (t : Int) (offsetMin : Int) : Nat := ((t + offsetMin) % 1440).toNat

/-- user.notification_preferences or an empty dict. -/
def effPrefs (u : UserRec) : Prefs :=
  u.notification_preferences.getD ⟨none, none, none, none, none, none⟩

/-- prefs.get of the quiet-hours start, default 22:00. -/
def quietStartOf (u : UserRec) : String := (effPrefs u).quiet_hours_start.getD "22:00"

/-- prefs.get of the quiet-hours end, default 08:00. -/
def quietEndOf (u : UserRec) : String := (effPrefs u).quiet_hours_end.getD "08:00"

/-- The HH:MM string of a UTC instant rendered on the local clock of a
timezone with the given offset. -/
def localHM (t : Int) (off : Int) : String := formatHM (localMinutesOfDay t off)

/-- NotificationService._is_quiet_hours. tzdb models the pytz timezone
table: none stands for an unknown timezone name, on which pytz raises and
the except clause returns False (fail open). -/
def isQuietHours (tzdb : String → Option Int) (u : UserRec) (notification_time : Int) : Bool :=
  let quiet_start := quietStartOf u
  let quiet_end := quietEndOf u
  match tzdb u.timezone with
  | none => false
  | some off =>
    let time_str := localHM notification_time off
    if pyStrLe quiet_start quiet_end then
      pyStrLe quiet_start time_str && pyStrLe time_str quiet_end
    else
      pyStrLe quiet_start time_str || pyStrLe time_str quiet_end

/-- Splitting an HH:MM string on the colon and parsing both fields as int,
followed by the datetime.replace validation of the hour and minute ranges;
none models the exception path. -/
def parseHM (s : String) : Option (Nat × Nat) :=
  match s.splitOn ":" with
  | [h, m] =>
    match h.toNat?, m.toNat? with
    | some hh, some mm => if hh < 24 && mm < 60 then some (hh, mm) else none
    | _, _ => none
  | _ => none

/-- NotificationService._get_next_available_time: set the local clock to the
quiet-hours end, add one day when that instant is not strictly after the
current local time, convert back to UTC; any failure falls back to one hour
later. -/
def nextAvailableTime (tzdb : String → Option Int) (u : UserRec)
    (notification_time : Int) : Int :=
  let quiet_end := quietEndOf u
  match tzdb u.timezone with
  | none => notification_time + 60
  | some off =>
    match parseHM quiet_end with
    | none => notification_time + 60
    | some (hh, mm) =>
      let localT := notification_time + off
      let candidate := localT - localT % 1440 + (hh * 60 + mm)
      let nextT := if candidate ≤ localT then candidate + 1440 else candidate
      nextT - off

/-- The deadline columns read by the scheduler and the update path, with
the due instant on the minute timeline. -/
structure SchedDeadline where
  id : Nat
  user_id : Nat
  title : String
  description : Option String
  due_date : Int
  is_recurring : Bool
  recurrence_pattern : Option String
  reminder_days : List Nat
deriving DecidableEq, Repr

/-- One Notification row as _create_notification commits it: unsent, no
sent timestamp. -/
def mkNotification (user_id : Nat) (deadline_id : Option Nat) (k : NotifKind)
    (scheduled_for : Int) : NotificationRow :=
  ⟨0, user_id, deadline_id, k, scheduled_for, false, none⟩

/-- The per-reminder-day channel fan-out of schedule_deadline_notifications:
email if enabled (default on), sms and whatsapp if enabled (default off)
and the phone column is truthy (a None or empty-string phone is falsy in
Python and skips those channels), push if enabled (default on); in source
order. -/
def channelRows (u : UserRec) (d : SchedDeadline) (t : Int) : List NotificationRow :=
  let prefs := effPrefs u
  (if prefs.email.getD true then [mkNotification d.user_id (some d.id) .email t] else []) ++
  ((if prefs.sms.getD false && truthyStr u.phone then
    [mkNotification d.user_id (some d.id) .sms t] else []) ++
  ((if prefs.whatsapp.getD false && truthyStr u.phone then
    [mkNotification d.user_id (some d.id) .whatsapp t] else []) ++
  (if prefs.push.getD true then [mkNotification d.user_id (some d.id) .push t] else [])))

/-- The reminder-day loop of schedule_deadline_notifications: a lead time
whose computed instant is not in the future is skipped, creating nothing. -/
def scheduleDays (u : UserRec) (d : SchedDeadline) (now : Int) :
    List Nat → List NotificationRow
  | [] => []
  | days_before :: rest =>
    (if d.due_date - days_before * 1440 ≤ now then []
     else channelRows u d (d.due_date - days_before * 1440)) ++
      scheduleDays u d now rest

/-- NotificationService.schedule_deadline_notifications: look up the user
(creating nothing when absent), then fan out over reminder days and
enabled channels, committing one row per combination. -/
def scheduleDeadlineNotifications (users : Nat → Option UserRec) (now : Int)
    (d : SchedDeadline) : List NotificationRow :=
  match users d.user_id with
  | none => []
  | some u => scheduleDays u d now d.reminder_days

/-- The update_data dict of update_deadline: a none field is an absent key.
An explicit recurrence_pattern update may set the column to NULL, hence the
nested Option, and likewise for description. -/
structure UpdateData where
  title : Option String
  description : Option (Option String)
  due_date : Option Int
  is_recurring : Option Bool
  recurrence_pattern : Option (Option String)
  reminder_days : Option (List Nat)
deriving Repr

/-- Field-wise application of the allowed update keys. -/
def applyUpdate (r : SchedDeadline) (upd : UpdateData) : SchedDeadline :=
  { r with
    title := upd.title.getD r.title
    description := upd.description.getD r.description
    due_date := upd.due_date.getD r.due_date
    is_recurring := upd.is_recurring.getD r.is_recurring
    recurrence_pattern := upd.recurrence_pattern.getD r.recurrence_pattern
    reminder_days := upd.reminder_days.getD r.reminder_days }

/-- DeadlineService.update_deadline: ownership-checked lookup, field
updates, commit, then re-invocation of the notification scheduler when the
due_date key is present. The scheduler only inserts new rows: the existing
notification rows are never deleted or modified by this path. -/
def updateDeadline (users : Nat → Option UserRec) (now : Int)
    (dls : List SchedDeadline) (ns : List NotificationRow)
    (deadline_id user_id : Nat) (upd : UpdateData) :
    List SchedDeadline × List NotificationRow × Except String SchedDeadline :=
  match dls.find? (fun x => x.id == deadline_id && x.user_id == user_id) with
  | none => (dls, ns, .error "Deadline not found")
  | some r =>
    let r2 := applyUpdate r upd
    let dls2 := dls.map (fun x => if x.id == deadline_id && x.user_id == user_id then r2 else x)
    if upd.due_date.isSome then
      (dls2, ns ++ scheduleDeadlineNotifications users now r2, .ok r2)
    else (dls2, ns, .ok r2)

/-- Environment of a dispatcher sweep: the Directory lookup, the pytz
table, the wall clock read at send time, and the channel outcome (missing
configuration and transport failure both yield false, success true), all
outside the modelled control flow. -/
structure SweepEnv where
  users : Nat → Option UserRec
  tzdb : String → Option Int
  now : Int
  channelOk : NotificationRow → Bool

/-- NotificationService.send_notification: user lookup (returns False with
no write when the user is missing), quiet-hours deferral (only
scheduled_for changes, is_sent stays false), otherwise a channel send
recording the outcome in is_sent and sent_at. Returns the updated row and
Python's return value. -/
def sendNotification (env : SweepEnv) (n : NotificationRow) : NotificationRow × Bool :=
  match env.users n.user_id with
  | none => (n, false)
  | some u =>
    if isQuietHours env.tzdb u n.scheduled_for then
      ({ n with scheduled_for := nextAvailableTime env.tzdb u n.scheduled_for }, true)
    else
      (⟨n.id, n.user_id, n.deadline_id, n.notification_type, n.scheduled_for,
        env.channelOk n, if env.channelOk n then some env.now else none⟩, env.channelOk n)

/-- NotificationService.get_pending_notifications: all rows that are due
and unsent. -/
def getPendingNotifications (now : Int) (ns : List NotificationRow) : List NotificationRow :=
  ns.filter (fun n => decide (n.scheduled_for ≤ now) && !n.is_sent)

/-- NotificationService.process_pending_notifications: send every pending
row (each row's transition is independent) and return the new table with
the processed count. -/
def processPendingNotifications (env : SweepEnv) (ns : List NotificationRow) :
    List NotificationRow × Nat :=
  (ns.map (fun n =>
      if decide (n.scheduled_for ≤ env.now) && !n.is_sent then (sendNotification env n).1 else n),
    (getPendingNotifications env.now ns).length)

/-- Iterated dispatcher sweeps under a fixed environment. -/
def sweepIter (env : SweepEnv) : Nat → List NotificationRow → List NotificationRow
  | 0, ns => ns
  | k + 1, ns => sweepIter env k (processPendingNotifications env ns).1

/-- A user with every channel enabled and a phone on file, in the IST
timezone with the default quiet window. -/
def fullUser : UserRec :=
  ⟨1, some "+911234567890", "Asia/Kolkata",
    some ⟨some true, some true, some true, some true, none, none⟩⟩

/-- A user with only the default channels and no phone. -/
def emailUser : UserRec :=
  ⟨1, none, "Asia/Kolkata", some ⟨some true, some false, some false, some false, none, none⟩⟩

/-- Directory with exactly user 1. -/
def oneUserDir (u : UserRec) : Nat → Option UserRec :=
  fun i => if i = 1 then some u else none

/-- A pytz table knowing only the IST name (UTC+5:30 = 330 minutes). -/
def istTz : String → Option Int :=
  fun s => if s = "Asia/Kolkata" then some 330 else none

/-- A deadline row in the scheduler world, due at day 100 on the minute
timeline. -/
def schedDl : SchedDeadline :=
  ⟨1, 1, "Lease renewal", none, 100 * 1440, false, none, [7, 3, 1]⟩

/-- An already-scheduled unsent reminder for schedDl at its original due
date minus seven days. -/
def staleNotification : NotificationRow :=
  mkNotification 1 (some 1) .email (100 * 1440 - 7 * 1440)

/-- The update moving schedDl's due date to day 130. -/
def moveDue : UpdateData := ⟨none, none, some (130 * 1440), none, none, none⟩

/-! ## Lemmas about the calendar model -/

theorem daysInMonth_le (y m : Nat) : daysInMonth y m ≤ 31 := by
  unfold daysInMonth
  split
  · split <;> omega
  · split <;> omega

theorem daysInMonth_pos (y m : Nat) : 1 ≤ daysInMonth y m := by
  unfold daysInMonth
  split
  · split <;> omega
  · split <;> omega

theorem succDay_valid (d : DateTime) (h : d.ValidDT) : (succDay d).ValidDT := by
  obtain ⟨y, m, da, hh, mi, s⟩ := d
  obtain ⟨h1, h2, h3, h4, h5, h6, h7⟩ := h
  have hp1 := daysInMonth_pos y (m + 1)
  have hp2 := daysInMonth_pos (y + 1) 1
  unfold succDay
  dsimp only at *
  split
  · exact ⟨h1, h2, by dsimp only; omega, by dsimp only; omega, h5, h6, h7⟩
  · split
    · exact ⟨by dsimp only; omega, by dsimp only; omega, by dsimp only; omega,
        by dsimp only; omega, h5, h6, h7⟩
    · exact ⟨by dsimp only; omega, by dsimp only; omega, by dsimp only; omega,
        by dsimp only; omega, h5, h6, h7⟩

theorem key_lt_succDay (d : DateTime) (h : d.ValidDT) : d.key < (succDay d).key := by
  obtain ⟨y, m, da, hh, mi, s⟩ := d
  obtain ⟨h1, h2, h3, h4, h5, h6, h7⟩ := h
  have h31 := daysInMonth_le y m
  unfold succDay
  dsimp only at *
  split
  · simp only [DateTime.key]; omega
  · split
    · simp only [DateTime.key]; omega
    · simp only [DateTime.key]; omega

theorem addDays_valid (d : DateTime) (h : d.ValidDT) (n : Nat) : (addDays d n).ValidDT := by
  induction n with
  | zero => exact h
  | succ k ih => exact succDay_valid _ ih

theorem key_lt_addDays (d : DateTime) (h : d.ValidDT) (n : Nat) (hn : 0 < n) :
    d.key < (addDays d n).key := by
  induction n with
  | zero => omega
  | succ k ih =>
    have hk := key_lt_succDay (addDays d k) (addDays_valid d h k)
    cases Nat.eq_zero_or_pos k with
    | inl h0 => subst h0; exact hk
    | inr hpos => exact lt_trans (ih hpos) hk

theorem pyReplaceYM_ok (d : DateTime) (y m : Nat) (r : DateTime)
    (h : pyReplaceYM d y m = .ok r) :
    r = { d with year := y, month := m } ∧ 1 ≤ m ∧ m ≤ 12 ∧ d.day ≤ daysInMonth y m := by
  unfold pyReplaceYM at h
  split at h
  · cases h
  · split at h
    · cases h
    · cases h
      refine ⟨rfl, ?_, ?_, ?_⟩ <;> omega

theorem dtLt_addDays (d : DateTime) (h : d.ValidDT) (n : Nat) (hn : 0 < n) :
    dtLt d (addDays d n) := key_lt_addDays d h n hn

theorem pyReplaceYM_later (d : DateTime) (hd : d.ValidDT) (y m : Nat) (r : DateTime)
    (hlex : d.year * 13 + d.month < y * 13 + m)
    (h : pyReplaceYM d y m = .ok r) : r.ValidDT ∧ dtLt d r := by
  obtain ⟨hv1, hv2, hv3, hv4, hv5, hv6, hv7⟩ := hd
  obtain ⟨hr, hm1, hm2, hday⟩ := pyReplaceYM_ok d y m r h
  subst hr
  refine ⟨⟨hm1, hm2, hv3, by dsimp only; exact hday, hv5, hv6, hv7⟩, ?_⟩
  unfold dtLt DateTime.key
  dsimp only
  omega

theorem nextDue_ok_spec (d : DateTime) (hd : d.ValidDT) (p : String) (r : DateTime)
    (h : calculateNextDueDate d p = .ok r) : r.ValidDT ∧ dtLt d r := by
  obtain ⟨hv1, hv2, hv3, hv4, hv5, hv6, hv7⟩ := hd
  have hd' : d.ValidDT := ⟨hv1, hv2, hv3, hv4, hv5, hv6, hv7⟩
  unfold calculateNextDueDate at h
  by_cases hp1 : p = "daily"
  · rw [if_pos hp1] at h
    exact (Except.ok.inj h) ▸ ⟨addDays_valid d hd' 1, dtLt_addDays d hd' 1 (by omega)⟩
  rw [if_neg hp1] at h
  by_cases hp2 : p = "weekly"
  · rw [if_pos hp2] at h
    exact (Except.ok.inj h) ▸ ⟨addDays_valid d hd' 7, dtLt_addDays d hd' 7 (by omega)⟩
  rw [if_neg hp2] at h
  by_cases hp3 : p = "monthly"
  · rw [if_pos hp3] at h
    by_cases hm : d.month = 12
    · rw [if_pos hm] at h
      exact pyReplaceYM_later d hd' _ _ r (by omega) h
    · rw [if_neg hm] at h
      exact pyReplaceYM_later d hd' _ _ r (by omega) h
  rw [if_neg hp3] at h
  by_cases hp4 : p = "quarterly"
  · rw [if_pos hp4] at h
    by_cases hq : d.month + 3 > 12
    · rw [if_pos hq] at h
      exact pyReplaceYM_later d hd' _ _ r (by omega) h
    · rw [if_neg hq] at h
      exact pyReplaceYM_later d hd' _ _ r (by omega) h
  rw [if_neg hp4] at h
  by_cases hp5 : p = "annually"
  · rw [if_pos hp5] at h
    exact pyReplaceYM_later d hd' _ _ r (by omega) h
  rw [if_neg hp5] at h
  exact pyReplaceYM_later d hd' _ _ r (by omega) h

/-- C1 counterexample: January 31 with pattern monthly is a valid due instant
on which _calculate_next_due_date raises ValueError (datetime.replace refuses
day 31 in February) instead of degrading gracefully, refuting totality. -/
theorem recurrence_next_due_jan31_monthly_raises :
    calculateNextDueDate ⟨2025, 1, 31, 0, 0, 0⟩ "monthly" =
      .error "day is out of range for month" ∧
    DateTime.ValidDT ⟨2025, 1, 31, 0, 0, 0⟩ := by decide

/-- C1 (amended): for every valid due instant, _calculate_next_due_date with
pattern daily or weekly never throws, and for every pattern, whenever it does
return a result that result is a valid instant strictly later than the input;
but day-of-month combinations invalid in the target month (and unrecognized
patterns applied in December) raise rather than degrade gracefully. -/
theorem recurrence_next_due_total_and_later (d : DateTime) (hd : d.ValidDT) :
    (∀ p r, calculateNextDueDate d p = .ok r → r.ValidDT ∧ dtLt d r) ∧
    (∃ r, calculateNextDueDate d "daily" = .ok r) ∧
    (∃ r, calculateNextDueDate d "weekly" = .ok r) :=
  ⟨fun p r h => nextDue_ok_spec d hd p r h, ⟨addDays d 1, rfl⟩, ⟨addDays d 7, rfl⟩⟩

/-- C1 witness at the concrete valid instant 2025-01-15T00:00:00Z. -/
theorem recurrence_next_due_total_and_later_witness :
    (∀ p r, calculateNextDueDate ⟨2025, 1, 15, 0, 0, 0⟩ p = .ok r →
      r.ValidDT ∧ dtLt ⟨2025, 1, 15, 0, 0, 0⟩ r) ∧
    (∃ r, calculateNextDueDate ⟨2025, 1, 15, 0, 0, 0⟩ "daily" = .ok r) ∧
    (∃ r, calculateNextDueDate ⟨2025, 1, 15, 0, 0, 0⟩ "weekly" = .ok r) :=
  recurrence_next_due_total_and_later ⟨2025, 1, 15, 0, 0, 0⟩ (by decide)

/-- C9 counterexample: on 2025-12-15 the unrecognized-pattern fallback branch
raises (month 13 is out of range: the else branch has no December handling)
while the monthly branch wraps to January 2026, so the two branches are not
extensionally equal. -/
theorem fallback_ne_monthly_in_december :
    calculateNextDueDate ⟨2025, 12, 15, 0, 0, 0⟩ "unrecognized" ≠
      calculateNextDueDate ⟨2025, 12, 15, 0, 0, 0⟩ "monthly" := by decide

/-- C9 (amended): for every input instant whose month is not December, an
unrecognized pattern string returns exactly what pattern monthly returns; in
December the fallback branch raises while monthly wraps the year. -/
theorem fallback_eq_monthly_outside_december (d : DateTime) (p : String)
    (hm : ¬d.month = 12) (h1 : p ≠ "daily") (h2 : p ≠ "weekly") (h3 : p ≠ "monthly")
    (h4 : p ≠ "quarterly") (h5 : p ≠ "annually") :
    calculateNextDueDate d p = calculateNextDueDate d "monthly" := by
  unfold calculateNextDueDate
  rw [if_neg h1, if_neg h2, if_neg h3, if_neg h4, if_neg h5,
    if_neg (show ¬("monthly" = "daily") by decide),
    if_neg (show ¬("monthly" = "weekly") by decide),
    if_pos (show ("monthly" : String) = "monthly" from rfl), if_neg hm]

/-- C9 witness: the unrecognized pattern fortnightly on 2025-05-10 agrees with
monthly. -/
theorem fallback_eq_monthly_outside_december_witness :
    calculateNextDueDate ⟨2025, 5, 10, 0, 0, 0⟩ "fortnightly" =
      calculateNextDueDate ⟨2025, 5, 10, 0, 0, 0⟩ "monthly" :=
  fallback_eq_monthly_outside_december ⟨2025, 5, 10, 0, 0, 0⟩ "fortnightly"
    (by decide) (by decide) (by decide) (by decide) (by decide) (by decide)

/-! ## Lemmas about the GST generator and the completion flow -/

theorem createGst_found (store : List DeadlineRow) (u : Nat) (b : String) (due : DateTime)
    (ex : DeadlineRow) (hfind : store.find? (gstMatch u due) = some ex) :
    createGstDeadline store u b due = (store, ex) := by
  unfold createGstDeadline
  rw [hfind]

theorem createGst_notfound (store : List DeadlineRow) (u : Nat) (b : String) (due : DateTime)
    (hfind : store.find? (gstMatch u due) = none) :
    createGstDeadline store u b due =
      (store ++ [mkGstRow store u b due], mkGstRow store u b due) := by
  unfold createGstDeadline
  rw [hfind]

theorem gstMatch_mkGstRow (store : List DeadlineRow) (u : Nat) (b : String) (due : DateTime) :
    gstMatch u due (mkGstRow store u b due) = true := by
  simp [gstMatch, mkGstRow]

theorem applyCompletion_length (store : List DeadlineRow) (deadline_id user_id : Nat)
    (now : DateTime) : (applyCompletion store deadline_id user_id now).length = store.length :=
  List.length_map _ _

theorem createNext_error (s : List DeadlineRow) (c : DeadlineRow) (s2 : List DeadlineRow)
    (e : String) (h : createNextRecurringDeadline s c = (s2, .error e)) : s2 = s := by
  unfold createNextRecurringDeadline at h
  cases hp : c.recurrence_pattern with
  | none => rw [hp] at h; cases h
  | some p =>
    rw [hp] at h
    dsimp only at h
    by_cases he : p.isEmpty
    · rw [if_pos he] at h; cases h
    · rw [if_neg he] at h
      cases hc : calculateNextDueDate c.due_date p with
      | error e2 => rw [hc] at h; cases h; rfl
      | ok nd => rw [hc] at h; cases h

theorem createNext_ok (s : List DeadlineRow) (c : DeadlineRow) (p : String) (nd : DateTime)
    (hp : c.recurrence_pattern = some p) (hpe : p.isEmpty = false)
    (hnext : calculateNextDueDate c.due_date p = .ok nd) :
    createNextRecurringDeadline s c =
      (s ++ [successorRow s c nd], .ok (some (successorRow s c nd))) := by
  unfold createNextRecurringDeadline
  rw [hp]
  dsimp only
  rw [if_neg (by rw [hpe]; exact fun h => nomatch h), hnext]

theorem markCompleted_notfound (store : List DeadlineRow) (deadline_id user_id : Nat)
    (now : DateTime) (hfind : findDeadline store deadline_id user_id = none) :
    markDeadlineCompleted store deadline_id user_id now =
      (store, .error "Deadline not found") := by
  unfold markDeadlineCompleted
  rw [hfind]

theorem markCompleted_found (store : List DeadlineRow) (deadline_id user_id : Nat)
    (now : DateTime) (r : DeadlineRow)
    (hfind : findDeadline store deadline_id user_id = some r) :
    markDeadlineCompleted store deadline_id user_id now =
      (if ((completeRow now r).is_recurring &&
          truthyStr (completeRow now r).recurrence_pattern) = true then
        match createNextRecurringDeadline (applyCompletion store deadline_id user_id now)
            (completeRow now r) with
        | (store2, .error e) => (store2, .error e)
        | (store2, .ok _) => (store2, .ok (completeRow now r))
      else (applyCompletion store deadline_id user_id now, .ok (completeRow now r))) := by
  unfold markDeadlineCompleted
  rw [hfind]

/-- C2 counterexample: completing the recurring Jan-31 monthly deadline
raises (the successor due-date computation fails) yet the store that remains
holds the deadline with is_completed already true: the completion commit
happened before the failure and the rollback cannot undo it, so the
operation is not atomic. -/
theorem complete_commits_before_successor_failure :
    (markDeadlineCompleted [janDeadline] 1 1 ⟨2025, 1, 25, 12, 0, 0⟩).2 =
      .error "day is out of range for month" ∧
    ∃ r ∈ (markDeadlineCompleted [janDeadline] 1 1 ⟨2025, 1, 25, 12, 0, 0⟩).1,
      r.is_completed = true := by decide

/-- C2 (amended): the rollback restores only to the most recent commit, not
to the start of the operation. When mark_deadline_completed raises, the
surviving store is either the untouched one (lookup failed before any
write) or exactly the store with the completion flags committed; in
particular no partial successor Deadline row is left behind (row count is
unchanged on every error path). -/
theorem lifecycle_error_rolls_back_to_last_commit (store : List DeadlineRow)
    (deadline_id user_id : Nat) (now : DateTime)
    (herr : (markDeadlineCompleted store deadline_id user_id now).2.isOk = false) :
    ((markDeadlineCompleted store deadline_id user_id now).1 = store ∨
      (markDeadlineCompleted store deadline_id user_id now).1 =
        applyCompletion store deadline_id user_id now) ∧
    (markDeadlineCompleted store deadline_id user_id now).1.length = store.length := by
  cases hfind : findDeadline store deadline_id user_id with
  | none =>
    rw [markCompleted_notfound store deadline_id user_id now hfind]
    exact ⟨Or.inl rfl, rfl⟩
  | some r =>
    rw [markCompleted_found store deadline_id user_id now r hfind] at herr ⊢
    by_cases hcond : ((completeRow now r).is_recurring &&
        truthyStr (completeRow now r).recurrence_pattern) = true
    · rw [if_pos hcond] at herr ⊢
      cases hnext : createNextRecurringDeadline
          (applyCompletion store deadline_id user_id now) (completeRow now r) with
      | mk store2 res =>
        cases res with
        | error e =>
          have hs2 := createNext_error _ _ _ _ hnext
          rw [hs2]
          exact ⟨Or.inr rfl, applyCompletion_length store deadline_id user_id now⟩
        | ok o => rw [hnext] at herr; exact Bool.noConfusion herr
    · rw [if_neg hcond] at herr
      exact Bool.noConfusion herr

/-- C2 witness: the amended rollback property at the failing Jan-31
scenario. -/
theorem lifecycle_error_rolls_back_to_last_commit_witness :
    ((markDeadlineCompleted [janDeadline] 1 1 ⟨2025, 1, 25, 12, 0, 0⟩).1 = [janDeadline] ∨
      (markDeadlineCompleted [janDeadline] 1 1 ⟨2025, 1, 25, 12, 0, 0⟩).1 =
        applyCompletion [janDeadline] 1 1 ⟨2025, 1, 25, 12, 0, 0⟩) ∧
    (markDeadlineCompleted [janDeadline] 1 1 ⟨2025, 1, 25, 12, 0, 0⟩).1.length =
      [janDeadline].length :=
  lifecycle_error_rolls_back_to_last_commit [janDeadline] 1 1 ⟨2025, 1, 25, 12, 0, 0⟩
    (by decide)

/-- C5 counterexample: completing the recurring 2025-03-20 monthly deadline
does spawn a persisted successor due 2025-04-20, but the operation returns
only the completed deadline (due 2025-03-20); the spawned successor is not
part of the returned value, refuting the returns-both clause. -/
theorem complete_returns_only_completed_deadline :
    (markDeadlineCompleted [marDeadline] 1 1 ⟨2025, 3, 20, 9, 0, 0⟩).2 =
      .ok (completeRow ⟨2025, 3, 20, 9, 0, 0⟩ marDeadline) ∧
    (completeRow ⟨2025, 3, 20, 9, 0, 0⟩ marDeadline).due_date = ⟨2025, 3, 20, 0, 0, 0⟩ ∧
    ∃ s ∈ (markDeadlineCompleted [marDeadline] 1 1 ⟨2025, 3, 20, 9, 0, 0⟩).1,
      s.due_date = ⟨2025, 4, 20, 0, 0, 0⟩ ∧
      (.ok s : Except String DeadlineRow) ≠
        (markDeadlineCompleted [marDeadline] 1 1 ⟨2025, 3, 20, 9, 0, 0⟩).2 := by decide

/-- C5 (amended): completing a recurring deadline whose pattern yields a
valid next due date sets the completed flag and timestamp, persists a
successor carrying exactly the advanced due date and the cloned
type/recurrence/reminder configuration, and returns the completed deadline
only (the spawned successor is persisted but not part of the return
value). -/
theorem complete_spawns_advanced_successor (store : List DeadlineRow)
    (deadline_id user_id : Nat) (now : DateTime)
    (r : DeadlineRow) (p : String) (nd : DateTime)
    (hfind : findDeadline store deadline_id user_id = some r)
    (hrec : r.is_recurring = true)
    (hp : r.recurrence_pattern = some p)
    (hpe : p.isEmpty = false)
    (hnext : calculateNextDueDate r.due_date p = .ok nd) :
    (markDeadlineCompleted store deadline_id user_id now).2 = .ok (completeRow now r) ∧
    ∃ s ∈ (markDeadlineCompleted store deadline_id user_id now).1,
      s.due_date = nd ∧ s.deadline_type = r.deadline_type ∧
      s.is_recurring = r.is_recurring ∧ s.recurrence_pattern = r.recurrence_pattern ∧
      s.reminder_days = r.reminder_days ∧ s.is_completed = false := by
  rw [markCompleted_found store deadline_id user_id now r hfind]
  have hcond : ((completeRow now r).is_recurring &&
      truthyStr (completeRow now r).recurrence_pattern) = true := by
    simp [completeRow, hrec, hp, truthyStr, hpe]
  rw [if_pos hcond,
    createNext_ok _ _ p nd (show (completeRow now r).recurrence_pattern = some p from hp) hpe
      (show calculateNextDueDate (completeRow now r).due_date p = .ok nd from hnext)]
  refine ⟨rfl, ?_⟩
  exact ⟨successorRow (applyCompletion store deadline_id user_id now) (completeRow now r) nd,
    List.mem_append_right _ (List.mem_singleton_self _), rfl, rfl, rfl, rfl, rfl, rfl⟩

/-- C5 witness: the design document's end-to-end scenario, due
2025-03-20T00:00:00Z with pattern monthly spawning a successor due
2025-04-20T00:00:00Z. -/
theorem complete_spawns_advanced_successor_witness :
    (markDeadlineCompleted [marDeadline] 1 1 ⟨2025, 3, 20, 9, 0, 0⟩).2 =
      .ok (completeRow ⟨2025, 3, 20, 9, 0, 0⟩ marDeadline) ∧
    ∃ s ∈ (markDeadlineCompleted [marDeadline] 1 1 ⟨2025, 3, 20, 9, 0, 0⟩).1,
      s.due_date = ⟨2025, 4, 20, 0, 0, 0⟩ ∧ s.deadline_type = marDeadline.deadline_type ∧
      s.is_recurring = marDeadline.is_recurring ∧
      s.recurrence_pattern = marDeadline.recurrence_pattern ∧
      s.reminder_days = marDeadline.reminder_days ∧ s.is_completed = false :=
  complete_spawns_advanced_successor [marDeadline] 1 1 ⟨2025, 3, 20, 9, 0, 0⟩ marDeadline
    "monthly" ⟨2025, 4, 20, 0, 0, 0⟩ (by decide) (by decide) (by decide) (by decide) (by decide)

/-- C8: the GST deadline generator is idempotent: a second invocation with
the identical (user, cadence, reference-derived due date) inputs finds the
row created by the first one and leaves the store unchanged, and one
invocation grows the number of rows matching the (user, gst_filing,
due_date) triple by at most one. -/
theorem gst_generation_idempotent (store : List DeadlineRow) (user_id : Nat)
    (business_type : String) (due : DateTime) :
    (createGstDeadline (createGstDeadline store user_id business_type due).1
        user_id business_type due).1 =
      (createGstDeadline store user_id business_type due).1 ∧
    ((createGstDeadline store user_id business_type due).1.filter
        (gstMatch user_id due)).length ≤ (store.filter (gstMatch user_id due)).length + 1 := by
  cases hfind : store.find? (gstMatch user_id due) with
  | some ex =>
    rw [createGst_found store user_id business_type due ex hfind]
    exact ⟨congrArg Prod.fst (createGst_found store user_id business_type due ex hfind),
      by dsimp only; omega⟩
  | none =>
    rw [createGst_notfound store user_id business_type due hfind]
    dsimp only
    have hfind2 : (store ++ [mkGstRow store user_id business_type due]).find?
        (gstMatch user_id due) = some (mkGstRow store user_id business_type due) := by
      rw [List.find?_append, hfind]
      simp [List.find?, gstMatch_mkGstRow]
    constructor
    · exact congrArg Prod.fst
        (createGst_found _ user_id business_type due _ hfind2)
    · rw [List.filter_append]
      simp [List.filter, gstMatch_mkGstRow]

/-! ## Lemmas and claims about the notification scheduler, the quiet-hours
policy and the dispatcher -/

theorem sent_row_fixed (env : SweepEnv) (ns : List NotificationRow) (n : NotificationRow)
    (hm : n ∈ ns) (hs : n.is_sent = true) :
    n ∈ (processPendingNotifications env ns).1 := by
  apply List.mem_map.mpr
  refine ⟨n, hm, ?_⟩
  rw [hs]
  simp

theorem sweepIter_sent (env : SweepEnv) (k : Nat) (ns : List NotificationRow)
    (n : NotificationRow) (hm : n ∈ ns) (hs : n.is_sent = true) :
    n ∈ sweepIter env k ns := by
  induction k generalizing ns with
  | zero => exact hm
  | succ j ih => exact ih _ (sent_row_fixed env ns n hm hs)

theorem sent_not_pending (now : Int) (ns : List NotificationRow) (n : NotificationRow)
    (hs : n.is_sent = true) : n ∉ getPendingNotifications now ns := by
  intro hmem
  have h2 := (List.mem_filter.mp hmem).2
  rw [hs] at h2
  simp at h2

theorem sweep_sentAt_inv (env : SweepEnv) (ns : List NotificationRow)
    (hinv : ∀ m ∈ ns, m.is_sent = true → m.sent_at ≠ none) :
    ∀ m ∈ (processPendingNotifications env ns).1, m.is_sent = true → m.sent_at ≠ none := by
  intro m hm
  obtain ⟨a, ha, rfl⟩ := List.mem_map.mp hm
  by_cases hc : (decide (a.scheduled_for ≤ env.now) && !a.is_sent) = true
  · rw [if_pos hc]
    unfold sendNotification
    cases hu : env.users a.user_id with
    | none => exact fun hsent => hinv a ha hsent
    | some u =>
      dsimp only
      by_cases hq : isQuietHours env.tzdb u a.scheduled_for = true
      · rw [if_pos hq]
        intro hsent
        dsimp only at hsent
        have hfalse : a.is_sent = false := by simpa using ((Bool.and_eq_true _ _).mp hc).2
        rw [hfalse] at hsent
        cases hsent
      · rw [if_neg hq]
        intro hsent
        dsimp only at hsent ⊢
        rw [hsent]
        simp
  · rw [if_neg hc]
    exact hinv a ha

theorem sweepIter_sentAt_inv (env : SweepEnv) (k : Nat) (ns : List NotificationRow)
    (hinv : ∀ m ∈ ns, m.is_sent = true → m.sent_at ≠ none) :
    ∀ m ∈ sweepIter env k ns, m.is_sent = true → m.sent_at ≠ none := by
  induction k generalizing ns with
  | zero => exact hinv
  | succ j ih => exact ih _ (sweep_sentAt_inv env ns hinv)

/-- C4: a Notification row with is_sent true survives any number of
dispatcher sweeps untouched, is never selected by the pending query again
(so no further send is ever attempted on it), and the invariant that every
sent row carries a non-null sent_at is preserved by sweeps; together this
gives at-most-once observable send per row in the sequential model. -/
theorem sent_notification_never_reselected (env : SweepEnv) (ns : List NotificationRow) (n : NotificationRow) (k : Nat)
    (hmem : n ∈ ns) (hsent : n.is_sent = true) :
    n ∈ sweepIter env k ns ∧
    n ∉ getPendingNotifications env.now (sweepIter env k ns) ∧
    ((∀ m ∈ ns, m.is_sent = true → m.sent_at ≠ none) →
      ∀ m ∈ sweepIter env k ns, m.is_sent = true → m.sent_at ≠ none) :=
  ⟨sweepIter_sent env k ns n hmem hsent,
    sent_not_pending env.now _ n hsent,
    fun hinv => sweepIter_sentAt_inv env k ns hinv⟩

theorem orphan_row_fixed (env : SweepEnv) (ns : List NotificationRow) (n : NotificationRow)
    (hu : env.users n.user_id = none) (hm : n ∈ ns) :
    n ∈ (processPendingNotifications env ns).1 := by
  apply List.mem_map.mpr
  refine ⟨n, hm, ?_⟩
  by_cases hc : (decide (n.scheduled_for ≤ env.now) && !n.is_sent) = true
  · rw [if_pos hc]
    unfold sendNotification
    rw [hu]
  · rw [if_neg hc]

theorem sweepIter_orphan (env : SweepEnv) (k : Nat) (ns : List NotificationRow)
    (n : NotificationRow) (hu : env.users n.user_id = none) (hm : n ∈ ns) :
    n ∈ sweepIter env k ns := by
  induction k generalizing ns with
  | zero => exact hm
  | succ j ih => exact ih _ (orphan_row_fixed env ns n hu hm)

/-- C10: for a Notification whose user_id matches no User row,
send_notification returns False leaving the row entirely unchanged, the row
survives any number of sweeps unchanged, and while due and unsent it is
re-selected by the pending query after every sweep, never marked sent. -/
theorem orphaned_notification_pending_forever (env : SweepEnv) (ns : List NotificationRow) (n : NotificationRow) (k : Nat)
    (hu : env.users n.user_id = none) (hmem : n ∈ ns) :
    sendNotification env n = (n, false) ∧
    n ∈ sweepIter env k ns ∧
    (n.is_sent = false → n.scheduled_for ≤ env.now →
      n ∈ getPendingNotifications env.now (sweepIter env k ns)) := by
  refine ⟨?_, sweepIter_orphan env k ns n hu hmem, ?_⟩
  · unfold sendNotification
    rw [hu]
  · intro hs hsch
    apply List.mem_filter.mpr
    refine ⟨sweepIter_orphan env k ns n hu hmem, ?_⟩
    rw [hs]
    simp [hsch]

theorem channelRows_sched (u : UserRec) (d : SchedDeadline) (t : Int) (r : NotificationRow)
    (hr : r ∈ channelRows u d t) : r.scheduled_for = t := by
  unfold channelRows at hr
  dsimp only at hr
  rcases List.mem_append.mp hr with h | h
  · split at h
    · rw [List.mem_singleton.mp h]; rfl
    · cases h
  rcases List.mem_append.mp h with h2 | h2
  · split at h2
    · rw [List.mem_singleton.mp h2]; rfl
    · cases h2
  rcases List.mem_append.mp h2 with h3 | h3
  · split at h3
    · rw [List.mem_singleton.mp h3]; rfl
    · cases h3
  · split at h3
    · rw [List.mem_singleton.mp h3]; rfl
    · cases h3

theorem scheduleDays_mem (u : UserRec) (d : SchedDeadline) (now : Int) (days : List Nat)
    (r : NotificationRow) (hr : r ∈ scheduleDays u d now days) :
    ∃ k ∈ days, ¬(d.due_date - k * 1440 ≤ now) ∧
      r.scheduled_for = d.due_date - k * 1440 := by
  induction days with
  | nil => cases hr
  | cons a rest ih =>
    unfold scheduleDays at hr
    rcases List.mem_append.mp hr with h | h
    · split at h
      · cases h
      next hcond =>
        exact ⟨a, List.mem_cons_self a rest, hcond, channelRows_sched u d _ r h⟩
    · obtain ⟨k, hk, h1, h2⟩ := ih h
      exact ⟨k, List.mem_cons_of_mem a hk, h1, h2⟩

theorem channelRows_len_full (u : UserRec) (d : SchedDeadline) (t : Int)
    (qs qe : Option String)
    (hpref : u.notification_preferences = some ⟨some true, some true, some true, some true, qs, qe⟩)
    (hphone : truthyStr u.phone = true) : (channelRows u d t).length = 4 := by
  simp [channelRows, effPrefs, hpref, hphone]

/-- C6: with reminder_days [7,3,1], all four channels enabled and a truthy
(non-empty) phone on file, the scheduler creates exactly 12 rows when every
computed instant is strictly in the future, and a reminder day whose
computed instant is not in the future contributes no notification at all
(no created row carries its instant). -/
theorem reminder_fanout_all_channels (users : Nat → Option UserRec) (u : UserRec) (d : SchedDeadline)
    (now : Int) (qs qe : Option String)
    (hu : users d.user_id = some u)
    (hphone : truthyStr u.phone = true)
    (hpref : u.notification_preferences = some ⟨some true, some true, some true, some true, qs, qe⟩)
    (hdays : d.reminder_days = [7, 3, 1]) :
    ((∀ k ∈ d.reminder_days, now < d.due_date - k * 1440) →
      (scheduleDeadlineNotifications users now d).length = 12) ∧
    (∀ k ∈ d.reminder_days, d.due_date - k * 1440 ≤ now →
      ∀ r ∈ scheduleDeadlineNotifications users now d,
        r.scheduled_for ≠ d.due_date - k * 1440) := by
  constructor
  · intro hfut
    have h7 := not_le.mpr (hfut 7 (by rw [hdays]; simp))
    have h3 := not_le.mpr (hfut 3 (by rw [hdays]; simp))
    have h1 := not_le.mpr (hfut 1 (by rw [hdays]; simp))
    unfold scheduleDeadlineNotifications
    rw [hu, hdays]
    simp only [scheduleDays]
    rw [if_neg h7, if_neg h3, if_neg h1]
    simp [List.length_append, channelRows_len_full u d _ qs qe hpref hphone]
  · intro k hk hpast r hr
    unfold scheduleDeadlineNotifications at hr
    rw [hu] at hr
    obtain ⟨k2, hk2, hfut2, hsched⟩ := scheduleDays_mem u d now d.reminder_days r hr
    rw [hsched]
    intro heq
    have hkk : k2 = k := by omega
    rw [hkk] at hfut2
    exact hfut2 hpast

/-- C7: quiet-hours semantics. On a timezone-lookup failure is_quiet is
false (fail open, no exception escapes); otherwise, with quiet_start not
exceeding quiet_end lexicographically, quiet holds iff the local HH:MM
string lies between them inclusively, and with the window wrapping midnight
quiet holds iff the local time is at or after quiet_start or at or before
quiet_end. -/
theorem quiet_hours_window_semantics (tzdb : String → Option Int) (u : UserRec) (t : Int) :
    (tzdb u.timezone = none → isQuietHours tzdb u t = false) ∧
    (∀ off, tzdb u.timezone = some off →
      isQuietHours tzdb u t =
        (if pyStrLe (quietStartOf u) (quietEndOf u) then
          pyStrLe (quietStartOf u) (localHM t off) && pyStrLe (localHM t off) (quietEndOf u)
        else
          pyStrLe (quietStartOf u) (localHM t off) || pyStrLe (localHM t off) (quietEndOf u))) := by
  constructor
  · intro h
    unfold isQuietHours
    rw [h]
  · intro off h
    unfold isQuietHours
    rw [h]

/-- C7 witness: IST local time 23:30 inside the default 22:00 to 08:00
window is quiet, and an unknown timezone yields not-quiet. -/
theorem quiet_hours_window_semantics_witness :
    isQuietHours istTz fullUser 1080 = true ∧
    isQuietHours (fun _ => none) fullUser 1080 = false := by
  constructor
  · rw [(quiet_hours_window_semantics istTz fullUser 1080).2 330 (by decide)]
    decide
  · exact (quiet_hours_window_semantics (fun _ => none) fullUser 1080).1 rfl

/-- C3 (amended): when update_deadline changes the due date, the
notification table afterwards is exactly the old rows followed by the
freshly scheduled set; every previously created notification, sent or not,
remains present (nothing is superseded), so duplicate reminders for the
moved deadline do accumulate. -/
theorem reschedule_appends_only (users : Nat → Option UserRec) (now : Int) (dls : List SchedDeadline)
    (ns : List NotificationRow) (deadline_id user_id : Nat) (upd : UpdateData)
    (r : SchedDeadline)
    (hfind : dls.find? (fun x => x.id == deadline_id && x.user_id == user_id) = some r)
    (hdue : upd.due_date.isSome = true) :
    (updateDeadline users now dls ns deadline_id user_id upd).2.1 =
      ns ++ scheduleDeadlineNotifications users now (applyUpdate r upd) ∧
    ∀ n ∈ ns, n ∈ (updateDeadline users now dls ns deadline_id user_id upd).2.1 := by
  unfold updateDeadline
  rw [hfind]
  dsimp only
  rw [if_pos hdue]
  exact ⟨rfl, fun n hn => List.mem_append_left _ hn⟩

/-- C3 counterexample: after moving the due date of a deadline that
already had an unsent reminder scheduled, that stale unsent reminder is
still in the table next to a freshly computed one, refuting the claim that
stale unsent notifications do not remain active alongside the fresh set. -/
theorem update_leaves_stale_notification :
    staleNotification ∈ (updateDeadline (oneUserDir emailUser) (50 * 1440) [schedDl]
      [staleNotification] 1 1 moveDue).2.1 ∧
    staleNotification.is_sent = false ∧ staleNotification.deadline_id = some 1 ∧
    ∃ f ∈ (updateDeadline (oneUserDir emailUser) (50 * 1440) [schedDl]
      [staleNotification] 1 1 moveDue).2.1,
      f.scheduled_for = 130 * 1440 - 7 * 1440 := by decide

/-- C3 witness: the concrete moved deadline keeps its old reminder row. -/
theorem reschedule_appends_only_witness :
    (updateDeadline (oneUserDir emailUser) (50 * 1440) [schedDl] [staleNotification]
        1 1 moveDue).2.1 =
      [staleNotification] ++ scheduleDeadlineNotifications (oneUserDir emailUser) (50 * 1440)
        (applyUpdate schedDl moveDue) ∧
    ∀ n ∈ [staleNotification], n ∈ (updateDeadline (oneUserDir emailUser) (50 * 1440)
      [schedDl] [staleNotification] 1 1 moveDue).2.1 :=
  reschedule_appends_only (oneUserDir emailUser) (50 * 1440) [schedDl] [staleNotification] 1 1 moveDue schedDl
    (by decide) (by decide)

/-- C4 witness: a concrete sent row among a pending one, after three
sweeps. -/
theorem sent_notification_never_reselected_witness :
    (⟨0, 1, none, NotifKind.email, 100, true, some 120⟩ : NotificationRow) ∈
      sweepIter ⟨oneUserDir emailUser, istTz, 200000, fun _ => true⟩ 3
        [⟨0, 1, none, NotifKind.email, 100, true, some 120⟩,
         ⟨1, 1, none, NotifKind.push, 150, false, none⟩] ∧
    (⟨0, 1, none, NotifKind.email, 100, true, some 120⟩ : NotificationRow) ∉
      getPendingNotifications 200000
        (sweepIter ⟨oneUserDir emailUser, istTz, 200000, fun _ => true⟩ 3
          [⟨0, 1, none, NotifKind.email, 100, true, some 120⟩,
           ⟨1, 1, none, NotifKind.push, 150, false, none⟩]) ∧
    ((∀ m ∈ [(⟨0, 1, none, NotifKind.email, 100, true, some 120⟩ : NotificationRow),
         ⟨1, 1, none, NotifKind.push, 150, false, none⟩],
        m.is_sent = true → m.sent_at ≠ none) →
      ∀ m ∈ sweepIter ⟨oneUserDir emailUser, istTz, 200000, fun _ => true⟩ 3
          [⟨0, 1, none, NotifKind.email, 100, true, some 120⟩,
           ⟨1, 1, none, NotifKind.push, 150, false, none⟩],
        m.is_sent = true → m.sent_at ≠ none) :=
  sent_notification_never_reselected ⟨oneUserDir emailUser, istTz, 200000, fun _ => true⟩
    [⟨0, 1, none, NotifKind.email, 100, true, some 120⟩,
     ⟨1, 1, none, NotifKind.push, 150, false, none⟩]
    ⟨0, 1, none, NotifKind.email, 100, true, some 120⟩ 3 (by decide) (by decide)

/-- C10 witness: a concrete due, unsent notification for the missing user 2
after four sweeps. -/
theorem orphaned_notification_pending_forever_witness :
    sendNotification ⟨oneUserDir emailUser, istTz, 200000, fun _ => true⟩
        ⟨0, 2, none, NotifKind.push, 50, false, none⟩ =
      (⟨0, 2, none, NotifKind.push, 50, false, none⟩, false) ∧
    (⟨0, 2, none, NotifKind.push, 50, false, none⟩ : NotificationRow) ∈
      sweepIter ⟨oneUserDir emailUser, istTz, 200000, fun _ => true⟩ 4
        [⟨0, 2, none, NotifKind.push, 50, false, none⟩] ∧
    ((⟨0, 2, none, NotifKind.push, 50, false, none⟩ : NotificationRow).is_sent = false →
      (⟨0, 2, none, NotifKind.push, 50, false, none⟩ : NotificationRow).scheduled_for ≤
        (⟨oneUserDir emailUser, istTz, 200000, fun _ => true⟩ : SweepEnv).now →
      (⟨0, 2, none, NotifKind.push, 50, false, none⟩ : NotificationRow) ∈
        getPendingNotifications (⟨oneUserDir emailUser, istTz, 200000, fun _ => true⟩ : SweepEnv).now
          (sweepIter ⟨oneUserDir emailUser, istTz, 200000, fun _ => true⟩ 4
            [⟨0, 2, none, NotifKind.push, 50, false, none⟩])) :=
  orphaned_notification_pending_forever ⟨oneUserDir emailUser, istTz, 200000, fun _ => true⟩
    [⟨0, 2, none, NotifKind.push, 50, false, none⟩]
    ⟨0, 2, none, NotifKind.push, 50, false, none⟩ 4 (by decide) (by decide)

/-- C6 witness: the all-channels user fans [7,3,1] out to 12 rows when the
due date is far in the future. -/
theorem reminder_fanout_all_channels_witness :
    (scheduleDeadlineNotifications (oneUserDir fullUser) 0 schedDl).length = 12 :=
  (reminder_fanout_all_channels (oneUserDir fullUser) fullUser schedDl 0 none none (by decide) (by decide)
    (by decide) (by decide)).1 (by decide)

end LegalBackend
